import Mathlib

/-!
Shallow embedding of the `kdmapi` Rust crate (`src/src/lib.rs`): a dynamic
binding layer over the native KDMAPI library.  The six native symbols are
external, so each native call is modelled by an environment-supplied result
(the value the native function would return), and every wrapper operation
additionally returns the list of observable events it performs: native calls
made and atomic stores to the shared `is_stream_open` flag.
-/

namespace Kdmapi

/-- One native KDMAPI call, as resolved from the dynamic library (the six
`Symbol` fields of `KDMAPIBinds` in `src/src/lib.rs`).  The two send calls
record their 32-bit payload argument. -/
inductive NativeCall where
  | isKDMAPIAvailable
  | initializeStream
  | terminateStream
  | resetStream
  | sendDirectData (arg : Nat)
  | sendDirectDataNoBuf (arg : Nat)
deriving DecidableEq

/-- An observable effect of the wrapper layer: a native call, or an atomic
store to the shared `is_stream_open` flag (`AtomicBool::store`).  Atomic
loads of the flag are pure reads and are not recorded. -/
inductive Event where
  | nativeCall (c : NativeCall)
  | flagStore (b : Bool)
deriving DecidableEq

/-- The mutable state of the binding table `KDMAPIBinds`: the six resolved
symbols are immutable once loaded, so the only mutable component is the
shared `is_stream_open : AtomicBool`. -/
structure BindsState where
  is_stream_open : Bool
deriving DecidableEq

/-- Outcome of `KDMAPIBinds::open_stream`: either of the two `panic!` exits
(carrying the binding-table state as it is at the moment of the panic), or
success, producing a `KDMAPIStream` handle that borrows the table whose
state is carried. -/
inductive OpenResult where
  | panicAlreadyOpen (s : BindsState)
  | panicInitFailed (s : BindsState)
  | ok (s : BindsState)
deriving DecidableEq

/-- `KDMAPIBinds::open_stream` (src/src/lib.rs, lines 29-43).  Loads the
`is_stream_open` flag; if it is true, panics with "KDMAPI stream is already
open" without calling any native function.  Otherwise calls
`InitializeKDMAPIStream` (result supplied by `initResult`); if that returns
0 it panics with "Failed to initialize KDMAPI stream", else it returns a
`KDMAPIStream` handle.  Note that the source stores nothing into the flag
on any of these paths. -/
def open_stream (s : BindsState) (initResult : Int) : OpenResult × List Event :=
  if s.is_stream_open then
    (OpenResult.panicAlreadyOpen s, [])
  else
    let events := [Event.nativeCall NativeCall.initializeStream]
    if initResult = 0 then
      (OpenResult.panicInitFailed s, events)
    else
      (OpenResult.ok s, events)

/-- `Drop for KDMAPIStream` (src/src/lib.rs, lines 90-99).  Calls
`TerminateKDMAPIStream`, ignoring its `i32` result (supplied by
`_termResult`), then stores `false` into the shared `is_stream_open` flag
with `Ordering::Relaxed`. -/
def drop_stream (_s : BindsState) (_termResult : Int) : BindsState × List Event :=
  ({ is_stream_open := false },
   [Event.nativeCall NativeCall.terminateStream, Event.flagStore false])

/-- `KDMAPIStream::reset` (src/src/lib.rs, lines 73-77).  Calls
`ResetKDMAPIStream` (native signature `fn()`, no result) and touches no
state. -/
def reset_stream (s : BindsState) : BindsState × List Event :=
  (s, [Event.nativeCall NativeCall.resetStream])

/-- `KDMAPIStream::send_direct_data` (src/src/lib.rs, lines 80-82).  Calls
`SendDirectData` with the given payload and returns its `u32` result; the
native function is modelled by the oracle `sendFn`. -/
def send_direct_data (sendFn : Nat → Nat) (data : Nat) : Nat × List Event :=
  (sendFn data, [Event.nativeCall (NativeCall.sendDirectData data)])

/-- `KDMAPIStream::send_direct_data_no_buf` (src/src/lib.rs, lines 85-87).
Calls `SendDirectDataNoBuf` with the given payload and returns its `u32`
result; the native function is modelled by the oracle `sendNoBufFn`. -/
def send_direct_data_no_buf (sendNoBufFn : Nat → Nat) (data : Nat) : Nat × List Event :=
  (sendNoBufFn data, [Event.nativeCall (NativeCall.sendDirectDataNoBuf data)])

/-- `KDMAPIBinds::is_kdmapi_available` (src/src/lib.rs, lines 19-21).
Calls `IsKDMAPIAvailable` (result supplied by `availResult`) and returns
its boolean result; the binding-table state is untouched. -/
def is_kdmapi_available (availResult : Bool) (s : BindsState) :
    Bool × BindsState × List Event :=
  (availResult, s, [Event.nativeCall NativeCall.isKDMAPIAvailable])

/-- A loaded dynamic library: a partial map from exported symbol names to
(opaque) symbol addresses, modelling `libloading::Library::get`. -/
structure Library where
  get : String → Option Nat

/-- The fully populated binding table produced by `load_kdmapi_binds`: six
resolved symbol addresses plus the `is_stream_open` flag. -/
structure KDMAPIBinds where
  is_kdmapi_available : Nat
  initialize_kdmapi_stream : Nat
  terminate_kdmapi_stream : Nat
  reset_kdmapi_stream : Nat
  send_direct_data : Nat
  send_direct_data_no_buf : Nat
  is_stream_open : Bool
deriving DecidableEq

/-- `load_kdmapi_binds` (src/src/lib.rs, lines 50-62).  Looks up the six
exported symbols by their exact names, `.unwrap()`-ing each (so the first
missing symbol aborts, modelled by `none`), and builds the table with
`is_stream_open` freshly initialized to `false`. -/
def load_kdmapi_binds (lib : Library) : Option KDMAPIBinds := do
  let a ← lib.get "IsKDMAPIAvailable"
  let b ← lib.get "InitializeKDMAPIStream"
  let c ← lib.get "TerminateKDMAPIStream"
  let d ← lib.get "ResetKDMAPIStream"
  let e ← lib.get "SendDirectData"
  let f ← lib.get "SendDirectDataNoBuf"
  some { is_kdmapi_available := a
         initialize_kdmapi_stream := b
         terminate_kdmapi_stream := c
         reset_kdmapi_stream := d
         send_direct_data := e
         send_direct_data_no_buf := f
         is_stream_open := false }

/-- Whole-system state for sequential executions against one binding table:
the shared flag together with the number of currently alive
`KDMAPIStream` handles.  (Rust's type system does not bound this number:
`open_stream` takes `&'a self`, so nothing prevents several live handles.) -/
structure SysState where
  is_stream_open : Bool
  aliveHandles : Nat
deriving DecidableEq

/-- One caller-issued operation, together with the result the native
library returns for the native call it triggers (if any). -/
inductive Op where
  | openStream (initResult : Int)
  | dropHandle (termResult : Int)
  | resetStream
  | sendData (v : Nat)
  | sendDataNoBuf (v : Nat)
  | checkAvailable (availResult : Bool)
deriving DecidableEq

/-- Sequential small-step semantics over `SysState`, built from the
per-operation definitions above.  A `panic!` aborts the execution
(`none`); handle operations require an alive handle to be invoked on. -/
def stepOp (s : SysState) (op : Op) : Option SysState :=
  match op with
  | Op.openStream r =>
      match (open_stream { is_stream_open := s.is_stream_open } r).1 with
      | OpenResult.ok b =>
          some { is_stream_open := b.is_stream_open,
                 aliveHandles := s.aliveHandles + 1 }
      | OpenResult.panicAlreadyOpen _ => none
      | OpenResult.panicInitFailed _ => none
  | Op.dropHandle t =>
      if s.aliveHandles = 0 then none
      else
        some { is_stream_open :=
                 (drop_stream { is_stream_open := s.is_stream_open } t).1.is_stream_open,
               aliveHandles := s.aliveHandles - 1 }
  | Op.resetStream =>
      if s.aliveHandles = 0 then none
      else some { is_stream_open :=
                    (reset_stream { is_stream_open := s.is_stream_open }).1.is_stream_open,
                  aliveHandles := s.aliveHandles }
  | Op.sendData _ => if s.aliveHandles = 0 then none else some s
  | Op.sendDataNoBuf _ => if s.aliveHandles = 0 then none else some s
  | Op.checkAvailable b =>
      some { is_stream_open := (is_kdmapi_available b
               { is_stream_open := s.is_stream_open }).2.1.is_stream_open,
             aliveHandles := s.aliveHandles }

/-- Run a sequence of operations from a state; `none` if any step panics
or is not invocable. -/
def run (s : SysState) (ops : List Op) : Option SysState :=
  match ops with
  | [] => some s
  | op :: rest =>
      match stepOp s op with
      | none => none
      | some s' => run s' rest

/-- The state right after `load_kdmapi_binds`: flag freshly `false`, no
handle alive. -/
def initState : SysState := { is_stream_open := false, aliveHandles := 0 }

/-- A system state reachable from a freshly loaded binding table by some
sequence of operations. -/
def Reachable (s : SysState) : Prop := ∃ ops, run initState ops = some s

/-- Project the native calls out of an event trace. -/
def nativeCallsOf (es : List Event) : List NativeCall :=
  es.filterMap fun e =>
    match e with
    | Event.nativeCall c => some c
    | Event.flagStore _ => none

/-- A library exporting every symbol (at address 0), used to exercise the
successful-load path concretely. -/
def libAll : Library := { get := fun _ => some 0 }

/-- The binding table `load_kdmapi_binds` produces from `libAll`. -/
def bindsAll : KDMAPIBinds :=
  { is_kdmapi_available := 0
    initialize_kdmapi_stream := 0
    terminate_kdmapi_stream := 0
    reset_kdmapi_stream := 0
    send_direct_data := 0
    send_direct_data_no_buf := 0
    is_stream_open := false }

/-- A library exporting no symbol at all, used to exercise the
missing-symbol path concretely. -/
def libNone : Library := { get := fun _ => none }

/-- C2: whenever `open_stream` is called in a state where `is_stream_open`
is true, the call panics with the already-open message: it returns neither
an error value nor a stream handle, and makes no native call. -/
theorem open_stream_panics_when_already_open (s : BindsState) (r : Int)
    (h : s.is_stream_open = true) :
    (open_stream s r).1 = OpenResult.panicAlreadyOpen s ∧
    (∀ b, (open_stream s r).1 ≠ OpenResult.ok b) ∧
    (open_stream s r).2 = [] := by
  simp [open_stream, h]

theorem open_stream_panics_when_already_open_witness :
    (open_stream { is_stream_open := true } 1).1 =
      OpenResult.panicAlreadyOpen { is_stream_open := true } ∧
    (∀ b, (open_stream { is_stream_open := true } 1).1 ≠ OpenResult.ok b) ∧
    (open_stream { is_stream_open := true } 1).2 = [] :=
  open_stream_panics_when_already_open { is_stream_open := true } 1 rfl

/-- C3: when the flag check passes (`is_stream_open = false`) and the
native `InitializeKDMAPIStream` returns 0, `open_stream` panics with the
init-failure message, produces no stream handle, and performs no store to
the flag on the way out, so the flag is left unchanged. -/
theorem open_stream_init_failure_panics_flag_unchanged (s : BindsState) (r : Int)
    (hflag : s.is_stream_open = false) (hr : r = 0) :
    (open_stream s r).1 = OpenResult.panicInitFailed s ∧
    (∀ b, (open_stream s r).1 ≠ OpenResult.ok b) ∧
    (∀ b, Event.flagStore b ∉ (open_stream s r).2) := by
  simp [open_stream, hflag, hr]

theorem open_stream_init_failure_panics_flag_unchanged_witness :
    (open_stream { is_stream_open := false } 0).1 =
      OpenResult.panicInitFailed { is_stream_open := false } ∧
    (∀ b, (open_stream { is_stream_open := false } 0).1 ≠ OpenResult.ok b) ∧
    (∀ b, Event.flagStore b ∉ (open_stream { is_stream_open := false } 0).2) :=
  open_stream_init_failure_panics_flag_unchanged { is_stream_open := false } 0 rfl rfl

/-- C4: destruction of a stream handle emits exactly one native
`TerminateKDMAPIStream` call followed by a store of `false` into the
shared flag, in that order; the terminate result is discarded
(`drop_stream` does not depend on it), and the resulting flag is false,
for every starting state. -/
theorem drop_stream_terminates_then_clears_flag (s : BindsState) (t : Int) :
    (drop_stream s t).2 =
      [Event.nativeCall NativeCall.terminateStream, Event.flagStore false] ∧
    (drop_stream s t).1.is_stream_open = false ∧
    (∀ t', drop_stream s t = drop_stream s t') := by
  refine ⟨rfl, rfl, fun t' => rfl⟩

/-- C6: `send_direct_data` passes its payload unmodified to the native
`SendDirectData` (the recorded call carries exactly `v`) and returns the
native result unmodified, whatever it is; likewise
`send_direct_data_no_buf` with `SendDirectDataNoBuf`.  No validation or
translation of the status code occurs. -/
theorem send_direct_data_passthrough (f g : Nat → Nat) (v : Nat)
    (_hv : v < 2 ^ 32) :
    (send_direct_data f v).1 = f v ∧
    (send_direct_data f v).2 = [Event.nativeCall (NativeCall.sendDirectData v)] ∧
    (send_direct_data_no_buf g v).1 = g v ∧
    (send_direct_data_no_buf g v).2 =
      [Event.nativeCall (NativeCall.sendDirectDataNoBuf v)] :=
  ⟨rfl, rfl, rfl, rfl⟩

theorem send_direct_data_passthrough_witness :
    (send_direct_data (fun _ => 0x12345678) 0x7F4090).1 = 0x12345678 ∧
    (send_direct_data (fun _ => 0x12345678) 0x7F4090).2 =
      [Event.nativeCall (NativeCall.sendDirectData 0x7F4090)] ∧
    (send_direct_data_no_buf (fun _ => 0x12345678) 0x7F4090).1 = 0x12345678 ∧
    (send_direct_data_no_buf (fun _ => 0x12345678) 0x7F4090).2 =
      [Event.nativeCall (NativeCall.sendDirectDataNoBuf 0x7F4090)] :=
  send_direct_data_passthrough (fun _ => 0x12345678) (fun _ => 0x12345678)
    0x7F4090 (by norm_num)

/-- C7: `is_kdmapi_available` returns the native `IsKDMAPIAvailable`
result verbatim, leaves the binding-table state (in particular the
`is_stream_open` flag) unchanged, and makes exactly one native call, the
availability check. -/
theorem is_kdmapi_available_passthrough (b : Bool) (s : BindsState) :
    (is_kdmapi_available b s).1 = b ∧
    (is_kdmapi_available b s).2.1 = s ∧
    nativeCallsOf (is_kdmapi_available b s).2.2 = [NativeCall.isKDMAPIAvailable] :=
  ⟨rfl, rfl, rfl⟩

/-- C8: from a state with the flag false, a successful `open_stream`
(nonzero native initialize) followed by `reset` on the returned handle and
then the handle's destruction performs exactly one `InitializeKDMAPIStream`
call, one `ResetKDMAPIStream` call, and one `TerminateKDMAPIStream` call,
in that order; and `reset` invokes the native reset unconditionally, in
every state. -/
theorem open_reset_drop_call_order (s : BindsState) (r t : Int)
    (h0 : s.is_stream_open = false) (hr : r ≠ 0) :
    (∃ b, (open_stream s r).1 = OpenResult.ok b ∧
      nativeCallsOf ((open_stream s r).2 ++ (reset_stream b).2 ++ (drop_stream b t).2) =
        [NativeCall.initializeStream, NativeCall.resetStream,
         NativeCall.terminateStream]) ∧
    (∀ s', (reset_stream s').2 = [Event.nativeCall NativeCall.resetStream]) := by
  refine ⟨⟨s, ?_, ?_⟩, fun s' => rfl⟩
  · simp [open_stream, h0, hr]
  · simp [open_stream, reset_stream, drop_stream, nativeCallsOf, h0, hr]

theorem open_reset_drop_call_order_witness :
    (∃ b, (open_stream { is_stream_open := false } 1).1 = OpenResult.ok b ∧
      nativeCallsOf ((open_stream { is_stream_open := false } 1).2 ++
          (reset_stream b).2 ++ (drop_stream b 0).2) =
        [NativeCall.initializeStream, NativeCall.resetStream,
         NativeCall.terminateStream]) ∧
    (∀ s', (reset_stream s').2 = [Event.nativeCall NativeCall.resetStream]) :=
  open_reset_drop_call_order { is_stream_open := false } 1 0 rfl (by decide)

/-- Helper: a successful `load_kdmapi_binds` determines every lookup. -/
theorem load_kdmapi_binds_some_spec (lib : Library) (k : KDMAPIBinds)
    (hk : load_kdmapi_binds lib = some k) :
    lib.get "IsKDMAPIAvailable" = some k.is_kdmapi_available ∧
    lib.get "InitializeKDMAPIStream" = some k.initialize_kdmapi_stream ∧
    lib.get "TerminateKDMAPIStream" = some k.terminate_kdmapi_stream ∧
    lib.get "ResetKDMAPIStream" = some k.reset_kdmapi_stream ∧
    lib.get "SendDirectData" = some k.send_direct_data ∧
    lib.get "SendDirectDataNoBuf" = some k.send_direct_data_no_buf ∧
    k.is_stream_open = false := by
  simp only [load_kdmapi_binds, Option.bind_eq_bind, Option.bind_eq_some,
    Option.some_inj] at hk
  obtain ⟨a, ha, b, hb, c, hc, d, hd, e, he, f, hf, hk⟩ := hk
  subst hk
  exact ⟨ha, hb, hc, hd, he, hf, rfl⟩

/-- C9: `load_kdmapi_binds` either resolves all six named symbols and
produces a fully populated binding table with `is_stream_open` initialized
to `false`, or, if any symbol is missing, aborts (returns no table at
all, so no partially populated table is ever produced). -/
theorem load_kdmapi_binds_all_or_nothing (lib : Library) :
    (∀ k, load_kdmapi_binds lib = some k →
      lib.get "IsKDMAPIAvailable" = some k.is_kdmapi_available ∧
      lib.get "InitializeKDMAPIStream" = some k.initialize_kdmapi_stream ∧
      lib.get "TerminateKDMAPIStream" = some k.terminate_kdmapi_stream ∧
      lib.get "ResetKDMAPIStream" = some k.reset_kdmapi_stream ∧
      lib.get "SendDirectData" = some k.send_direct_data ∧
      lib.get "SendDirectDataNoBuf" = some k.send_direct_data_no_buf ∧
      k.is_stream_open = false) ∧
    ((lib.get "IsKDMAPIAvailable" = none ∨
      lib.get "InitializeKDMAPIStream" = none ∨
      lib.get "TerminateKDMAPIStream" = none ∨
      lib.get "ResetKDMAPIStream" = none ∨
      lib.get "SendDirectData" = none ∨
      lib.get "SendDirectDataNoBuf" = none) →
      load_kdmapi_binds lib = none) := by
  refine ⟨fun k hk => load_kdmapi_binds_some_spec lib k hk, fun h => ?_⟩
  cases hl : load_kdmapi_binds lib with
  | none => rfl
  | some k =>
    exfalso
    obtain ⟨h1, h2, h3, h4, h5, h6, -⟩ := load_kdmapi_binds_some_spec lib k hl
    rcases h with h | h | h | h | h | h <;> simp_all

theorem load_kdmapi_binds_all_or_nothing_witness :
    bindsAll.is_stream_open = false ∧ load_kdmapi_binds libNone = none :=
  ⟨((load_kdmapi_binds_all_or_nothing libAll).1 bindsAll rfl).2.2.2.2.2.2,
   (load_kdmapi_binds_all_or_nothing libNone).2 (Or.inl rfl)⟩

/-- C5: after a handle is dropped the system state is back to the initial
one (flag false), a subsequent `open_stream` with a nonzero native
initialize succeeds and yields a new live handle, and the state after two
complete open/close cycles equals the state after one cycle. -/
theorem open_close_cycles (r1 r2 t1 t2 : Int) (h1 : r1 ≠ 0) (h2 : r2 ≠ 0) :
    run initState [Op.openStream r1, Op.dropHandle t1] = some initState ∧
    run initState [Op.openStream r1, Op.dropHandle t1, Op.openStream r2] =
      some { is_stream_open := false, aliveHandles := 1 } ∧
    run initState
        [Op.openStream r1, Op.dropHandle t1, Op.openStream r2, Op.dropHandle t2] =
      some initState := by
  refine ⟨?_, ?_, ?_⟩ <;>
    simp [run, stepOp, open_stream, drop_stream, initState, h1, h2]

theorem open_close_cycles_witness :
    run initState [Op.openStream 1, Op.dropHandle 0] = some initState ∧
    run initState [Op.openStream 1, Op.dropHandle 0, Op.openStream 1] =
      some { is_stream_open := false, aliveHandles := 1 } ∧
    run initState
        [Op.openStream 1, Op.dropHandle 0, Op.openStream 1, Op.dropHandle 0] =
      some initState :=
  open_close_cycles 1 1 0 0 (by decide) (by decide)

/-- Helper: a single step preserves falsity of the shared flag. -/
theorem stepOp_preserves_flag_false {s s' : SysState}
    (hs : s.is_stream_open = false) (op : Op) (h : stepOp s op = some s') :
    s'.is_stream_open = false := by
  cases op with
  | openStream r =>
    by_cases hr : r = 0
    · simp [stepOp, open_stream, hs, hr] at h
    · simp [stepOp, open_stream, hs, hr] at h
      subst h; rfl
  | dropHandle t =>
    by_cases hn : s.aliveHandles = 0
    · simp [stepOp, hn] at h
    · simp [stepOp, drop_stream, hn] at h
      subst h; rfl
  | resetStream =>
    by_cases hn : s.aliveHandles = 0
    · simp [stepOp, hn] at h
    · simp [stepOp, reset_stream, hn] at h
      subst h; exact hs
  | sendData v =>
    by_cases hn : s.aliveHandles = 0
    · simp [stepOp, hn] at h
    · simp [stepOp, hn] at h
      subst h; exact hs
  | sendDataNoBuf v =>
    by_cases hn : s.aliveHandles = 0
    · simp [stepOp, hn] at h
    · simp [stepOp, hn] at h
      subst h; exact hs
  | checkAvailable b =>
    simp [stepOp, is_kdmapi_available, hs] at h
    subst h; rfl

/-- Helper: running any operation sequence preserves falsity of the flag. -/
theorem run_preserves_flag_false (ops : List Op) :
    ∀ s s', s.is_stream_open = false → run s ops = some s' →
      s'.is_stream_open = false := by
  induction ops with
  | nil =>
    intro s s' hs h
    simp only [run, Option.some_inj] at h
    subst h
    exact hs
  | cons op rest ih =>
    intro s s' hs h
    simp only [run] at h
    cases hstep : stepOp s op with
    | none => rw [hstep] at h; exact absurd h (by simp)
    | some s1 =>
      rw [hstep] at h
      exact ih s1 s' (stepOp_preserves_flag_false hs op hstep) h

/-- C10: the shared flag starts false, stays false in every reachable
state (no operation ever stores `true`: the traces of every operation are
free of `flagStore true`), and consequently the already-open guard of
`open_stream` can never fire in an execution starting from a freshly
loaded binding table. -/
theorem reachable_flag_false :
    initState.is_stream_open = false ∧
    (∀ s, Reachable s → s.is_stream_open = false ∧
      ∀ r b, (open_stream { is_stream_open := s.is_stream_open } r).1 ≠
        OpenResult.panicAlreadyOpen b) ∧
    (∀ s r, Event.flagStore true ∉ (open_stream s r).2) ∧
    (∀ s t, Event.flagStore true ∉ (drop_stream s t).2) ∧
    (∀ s, Event.flagStore true ∉ (reset_stream s).2) ∧
    (∀ f v, Event.flagStore true ∉ (send_direct_data f v).2) ∧
    (∀ f v, Event.flagStore true ∉ (send_direct_data_no_buf f v).2) ∧
    (∀ b s, Event.flagStore true ∉ (is_kdmapi_available b s).2.2) := by
  refine ⟨rfl, ?_, ?_, ?_, ?_, ?_, ?_, ?_⟩
  · rintro s ⟨ops, hops⟩
    have hflag : s.is_stream_open = false :=
      run_preserves_flag_false ops initState s rfl hops
    refine ⟨hflag, fun r b => ?_⟩
    by_cases hr : r = 0 <;> simp [open_stream, hflag, hr]
  · intro s r
    by_cases hf : s.is_stream_open <;> by_cases hr : r = 0 <;>
      simp [open_stream, hf, hr]
  · intro s t; simp [drop_stream]
  · intro s; simp [reset_stream]
  · intro f v; simp [send_direct_data]
  · intro f v; simp [send_direct_data_no_buf]
  · intro b s; simp [is_kdmapi_available]

theorem reachable_flag_false_witness :
    initState.is_stream_open = false ∧
    ({ is_stream_open := false, aliveHandles := 1 } : SysState).is_stream_open =
      false :=
  ⟨reachable_flag_false.1,
   (reachable_flag_false.2.1 { is_stream_open := false, aliveHandles := 1 }
      ⟨[Op.openStream 1], by decide⟩).1⟩

/-- C1 fails on the code: from a freshly loaded table, one successful
`open_stream` (native initialize returning 1) leaves the flag `false` while
one handle is alive — `open_stream` never stores `true` — so the flag is
not true between a successful open and the handle's destruction; a second
`open_stream` then also succeeds, leaving two handles alive. -/
theorem open_stream_leaves_flag_false_bug :
    run initState [Op.openStream 1] =
      some { is_stream_open := false, aliveHandles := 1 } ∧
    run initState [Op.openStream 1, Op.openStream 1] =
      some { is_stream_open := false, aliveHandles := 2 } ∧
    ¬ (({ is_stream_open := false, aliveHandles := 1 } : SysState).is_stream_open =
          true ↔
        ({ is_stream_open := false, aliveHandles := 1 } : SysState).aliveHandles =
          1) := by
  refine ⟨by decide, by decide, by decide⟩

end Kdmapi
